import Mathlib

/-!
Shallow embedding of the core decision engine of `src/api/observe-tonight.js`
(window optimizer, night summarizer, target scorer, plan composer, time-zone
handling), together with theorems checking the specification's claims.

Modelling conventions:
* JS numbers are modelled as exact rationals `ℚ`; `Number.isFinite` guards on
  optional inputs are modelled by `Option ℚ` (`none` = missing / non-finite).
* JS `Array.prototype.slice(i, j)` on a list is `(l.drop i).take (j - i)`;
  with the source's shapes this is `(l.drop i).take w`.
* JS strings are Lean `String`s; `String.prototype.toLowerCase` and
  `String.prototype.includes` are re-implemented over `String.data` so that
  they compute by kernel reduction.
* The external astronomy library call (`Astronomy.Horizon`, wrapped by
  `altitudeDeg` in the source) is out of the repository; the target scorer
  takes the altitude computation as a function parameter `altFn ra dec`.
* The external `luxon` `DateTime.fromISO` call is likewise taken as a function
  parameter; the repository's own logic is the zone-defaulting expression
  `tz || "UTC"`, which is embedded faithfully.
-/

/-- JS `Math.round x`: the closest integer, halves rounding toward `+∞`;
for exact arithmetic this is `⌊x + 1/2⌋`. -/
def jsRound (x : ℚ) : ℤ := ⌊x + 1/2⌋

/-- `round1` from the source: `Math.round(x * 10) / 10`. -/
def round1 (x : ℚ) : ℚ := (jsRound (x * 10) : ℚ) / 10

/-- `sum` from the source: `arr.reduce((a, b) => a + b, 0)`. -/
def sum (arr : List ℚ) : ℚ := arr.foldl (fun a b => a + b) 0

/-- `avg` from the source: `arr.reduce((a, b) => a + b, 0) / (arr.length || 1)`.
JS `length || 1` is `1` when the length is `0` and the length otherwise. -/
def avg (arr : List ℚ) : ℚ :=
  sum arr / (((if arr.length = 0 then 1 else arr.length) : ℕ) : ℚ)

/-- The `weather.hourly` object: four parallel arrays. -/
structure WeatherHourly where
  time : List String
  cloud_cover : List ℚ
  precipitation : List ℚ
  wind_speed_10m : List ℚ
deriving DecidableEq

/-- The part of the Open-Meteo response the core reads. -/
structure Weather where
  hourly : WeatherHourly
deriving DecidableEq

/-- Result object of `computeBestWindow`. The source's field `end` is a Lean
keyword, so it is named `window_end` here. -/
structure ObservingWindow where
  start : String
  window_end : String
  window_hours : ℕ
  avg_cloud_cover_percent : ℤ
  total_precip_mm : ℚ
  avg_wind_kmh : ℚ
  score : ℚ
deriving DecidableEq

/-- The `scoreAt` closure inside `computeBestWindow`, applied to the already
truncated arrays: `avg(clouds.slice(i, i+w)) * 1.0 + sum(precip.slice(i, i+w))
* 100.0 + avg(wind.slice(i, i+w)) * 0.2`. -/
def scoreAt (clouds precip wind : List ℚ) (windowHours : ℕ) (i : ℕ) : ℚ :=
  avg ((clouds.drop i).take windowHours) * 1.0 +
    sum ((precip.drop i).take windowHours) * 100.0 +
    avg ((wind.drop i).take windowHours) * 0.2

/-- The selection loop of `computeBestWindow`: starting from
`bestI = 0, bestScore = f 0`, for `i = 1 .. k` replace the best pair whenever
`f i < bestScore` (strict, so the earliest index wins exact ties). -/
def bestLoop (f : ℕ → ℚ) (k : ℕ) : ℕ × ℚ :=
  (List.range' 1 k).foldl (fun b i => if f i < b.2 then (i, f i) else b) (0, f 0)

/-- `computeBestWindow(weather, hours = 12, windowHours = 2)` from the source.
Truncates the four hourly arrays to the first `hours` entries, returns `null`
when fewer than `windowHours` timestamps remain, otherwise scans starting
indices `1 .. times.length - windowHours` for a strictly better score and
builds the result record at the best index. -/
def computeBestWindow (weather : Weather) (hours windowHours : ℕ) :
    Option ObservingWindow :=
  let times := weather.hourly.time.take hours
  let clouds := weather.hourly.cloud_cover.take hours
  let precip := weather.hourly.precipitation.take hours
  let wind := weather.hourly.wind_speed_10m.take hours
  if times.length < windowHours then none
  else
    let best := bestLoop (scoreAt clouds precip wind windowHours)
      (times.length - windowHours)
    some
      { start := times.getD best.1 ""
        window_end := times.getD (best.1 + windowHours - 1) ""
        window_hours := windowHours
        avg_cloud_cover_percent :=
          jsRound (avg ((clouds.drop best.1).take windowHours))
        total_precip_mm := round1 (sum ((precip.drop best.1).take windowHours))
        avg_wind_kmh := round1 (avg ((wind.drop best.1).take windowHours))
        score := round1 best.2 }

/-- Result object of `summarizeTonight`. -/
structure Tonight where
  verdict : String
  avg_cloud_cover_percent : ℤ
  total_precip_mm : ℚ
deriving DecidableEq

/-- `summarizeTonight(weather)` from the source. Takes the first 6 entries of
cloud cover and precipitation, `avgCloud = sum / clouds.length` (no guard on
the divisor: in JS an empty series yields `NaN`, whose `>` comparisons are all
false; in this `ℚ` embedding division by zero yields `0`, and both give the
same verdict branch), and classifies: `"bad"` when `avgCloud > 80` or
`totalPrecip > 1`, else `"mixed"` when `avgCloud > 50`, else `"ok"`. -/
def summarizeTonight (weather : Weather) : Tonight :=
  let clouds := weather.hourly.cloud_cover.take 6
  let precip := weather.hourly.precipitation.take 6
  let avgCloud := sum clouds / (clouds.length : ℚ)
  let totalPrecip := sum precip
  let verdict :=
    if avgCloud > 80 ∨ totalPrecip > 1 then "bad"
    else if avgCloud > 50 then "mixed"
    else "ok"
  { verdict := verdict
    avg_cloud_cover_percent := jsRound avgCloud
    total_precip_mm := round1 totalPrecip }

/-- JS `String.prototype.toLowerCase`, re-implemented over the character list
so that it computes by kernel reduction (`String.toLower` is defined through
`String.mapAux`, which the kernel does not reduce). -/
def jsToLower (s : String) : String := ⟨s.data.map Char.toLower⟩

/-- JS `String.prototype.includes`: `sub` occurs contiguously in `s`. -/
def jsIncludes (s sub : String) : Bool :=
  s.data.tails.any (fun t => sub.data.isPrefixOf t)

/-- Caller-supplied equipment descriptor; `aperture_mm` is optional. -/
structure Equipment where
  aperture_mm : Option ℚ
deriving DecidableEq

/-- The aperture test in the `"ok"` branch of `makeRuleBasedPlan`:
`typeof aperture === "number" && aperture >= 150`. -/
def apertureAtLeast150 (equipment : Option Equipment) : Bool :=
  match equipment.bind (fun e => e.aperture_mm) with
  | some a => decide (150 ≤ a)
  | none => false

/-- The verdict string the source branches on:
`String(tonight?.verdict || "").toLowerCase()`. -/
def verdictOf (tonight : Option Tonight) : String :=
  jsToLower ((tonight.map (fun t => t.verdict)).getD "")

/-- `makeRuleBasedPlan(tonight, equipment)` from the source: three fixed
message sets keyed by the lower-cased verdict, with one aperture branch in the
default (`"ok"`) set. -/
def makeRuleBasedPlan (tonight : Option Tonight) (equipment : Option Equipment) :
    List String :=
  let v := verdictOf tonight
  if v = "bad" then
    ["Clouds/precip look bad. Expect limited observing.",
     "If there are brief gaps: try the Moon (if up) or bright planets.",
     "If clouds persist: use the night for planning—check tomorrow’s forecast and prep your gear."]
  else if v = "mixed" then
    ["Conditions are mixed. Watch for clear windows.",
     "Focus on bright targets: planets, Moon, bright star clusters.",
     "Keep sessions short and flexible—observe whenever the sky opens."]
  else
    ["Conditions look decent. Plan a full session.",
     "Start with bright/easy targets, then go deeper later in the night."] ++
      (if apertureAtLeast150 equipment then
        ["With ~150mm+ aperture, try brighter nebulae/galaxies (e.g., Orion Nebula)."]
      else
        ["With smaller aperture/binoculars, prioritize open clusters and bright nebulae."])

/-- The zone actually used by `toDateInWeatherTZ`: the JS expression
`tz || "UTC"` (both an absent zone and the falsy empty string fall back to
`"UTC"`). -/
def effectiveZone (tz : Option String) : String :=
  match tz with
  | none => "UTC"
  | some s => if s = "" then "UTC" else s

/-- `toDateInWeatherTZ(isoLocal, tz)` from the source:
`DateTime.fromISO(isoLocal, { zone: tz || "UTC" }).toJSDate()`. The external
`luxon` conversion is a function parameter `fromISO iso zone`; the
repository's own contribution is the zone default. The function is total: it
always returns a converted instant and has no failure channel. -/
def toDateInWeatherTZ {α : Type} (fromISO : String → String → α)
    (isoLocal : String) (tz : Option String) : α :=
  fromISO isoLocal (effectiveZone tz)

/-- A catalog record as read from `data/messier.json`. `Option ℚ` fields model
the `Number(...)` / `Number.isFinite(...)` guards of the source (`none` =
missing or non-finite); `object_type` models `o.object_type || ""` (a missing
type is the empty string). -/
structure CatalogObj where
  ra_deg : Option ℚ
  dec_deg : Option ℚ
  apparent_magnitude : Option ℚ
  size_major_arcmin : Option ℚ
  object_type : String
deriving DecidableEq

/-- An entry of the `scored` array in `pickTargets`: the catalog object (the
`...o` spread), its rounded altitude and rounded score. `catalogIdx` records
the object's position in the input catalog; it carries the information the
stable JS `Array.prototype.sort` preserves. -/
structure ScoredTarget where
  obj : CatalogObj
  catalogIdx : ℕ
  altitude_deg : ℚ
  score : ℚ
deriving DecidableEq

/-- The score accumulation of `pickTargets` for one surviving object, written
exactly as the source's sequence of `score += ...` updates:
`alt * 2.0`, then `+ (10 - mag) * 3.0` when the magnitude is finite, then
`+ Math.min(2.0, (apertureMm - 80) / 80)` when the aperture is finite, then
`+ Math.min(2.0, major / 30)` when the major size is finite, then the type
bonuses on the lower-cased type string. -/
def scoreOf (apertureMm : Option ℚ) (alt : ℚ) (o : CatalogObj) : ℚ :=
  let score := alt * 2.0
  let score := match o.apparent_magnitude with
    | some mag => score + (10 - mag) * 3.0
    | none => score
  let score := match apertureMm with
    | some ap => score + min 2.0 ((ap - 80) / 80)
    | none => score
  let score := match o.size_major_arcmin with
    | some major => score + min 2.0 (major / 30)
    | none => score
  let t := jsToLower o.object_type
  let score := if jsIncludes t "globular" then score + 0.6 else score
  let score := if jsIncludes t "open cluster" then score + 0.4 else score
  let score := if jsIncludes t "nebula" then score + 0.7 else score
  score

/-- The order realized by `scored.sort((a, b) => b.score - a.score)`:
JS `Array.prototype.sort` is stable, so the sorted array is ordered by
descending stored score with the original (catalog) position breaking exact
ties. -/
def targetLE (a b : ScoredTarget) : Prop :=
  b.score < a.score ∨ (a.score = b.score ∧ a.catalogIdx ≤ b.catalogIdx)

instance : DecidableRel targetLE := fun a b => by
  unfold targetLE; infer_instance

instance : IsTotal ScoredTarget targetLE where
  total a b := by
    unfold targetLE
    rcases lt_trichotomy a.score b.score with h | h | h
    · exact Or.inr (Or.inl h)
    · rcases Nat.le_total a.catalogIdx b.catalogIdx with hi | hi
      · exact Or.inl (Or.inr ⟨h, hi⟩)
      · exact Or.inr (Or.inr ⟨h.symm, hi⟩)
    · exact Or.inl (Or.inl h)

instance : IsTrans ScoredTarget targetLE where
  trans a b c hab hbc := by
    unfold targetLE at *
    rcases hab with h1 | ⟨h1, i1⟩
    · rcases hbc with h2 | ⟨h2, i2⟩
      · exact Or.inl (h2.trans h1)
      · exact Or.inl (h2 ▸ h1)
    · rcases hbc with h2 | ⟨h2, i2⟩
      · exact Or.inl (h1 ▸ h2)
      · exact Or.inr ⟨h1.trans h2, i1.trans i2⟩

/-- `pickTargets({ lat, lon, date, apertureMm, max })` from the source, with
the altitude computation (`altitudeDeg`, a wrapper around the external
astronomy-engine `Horizon` call at the fixed `lat`, `lon`, `date`) supplied as
the function parameter `altFn ra dec`. Objects with non-finite coordinates
are skipped, objects with altitude below 15° are skipped, survivors get
rounded altitude and score, and the stable descending sort is followed by
`slice(0, max)`. -/
def pickTargets (altFn : ℚ → ℚ → ℚ) (apertureMm : Option ℚ) (max : ℕ)
    (messier : List CatalogObj) : List ScoredTarget :=
  let scored := messier.enum.filterMap (fun oi =>
    match oi.2.ra_deg, oi.2.dec_deg with
    | some ra, some dec =>
      let alt := altFn ra dec
      if alt < 15 then none
      else some
        { obj := oi.2
          catalogIdx := oi.1
          altitude_deg := round1 alt
          score := round1 (scoreOf apertureMm alt oi.2) }
    | _, _ => none)
  (List.insertionSort targetLE scored).take max

/-- Modelled from the spec: `clamp(x, lo, hi)` as used in the claimed score
formula (`clamp((aperture_mm - 80) / 80, 0, 2.0)` and
`clamp(angular_size_arcmin / 30, 0, 2.0)`). -/
def clamp (x lo hi : ℚ) : ℚ := max lo (min hi x)

/-- Modelled from the spec: the composite score formula exactly as claim C3
states it, with both optional bonus terms clamped below at 0. Used only to
compare against the source's `scoreOf`. -/
def scoreSpecClamped (apertureMm : Option ℚ) (alt : ℚ) (o : CatalogObj) : ℚ :=
  alt * 2.0 +
    (match o.apparent_magnitude with
      | some mag => (10 - mag) * 3.0
      | none => 0) +
    (match apertureMm with
      | some ap => clamp ((ap - 80) / 80) 0 2.0
      | none => 0) +
    (match o.size_major_arcmin with
      | some major => clamp (major / 30) 0 2.0
      | none => 0) +
    (if jsIncludes (jsToLower o.object_type) "globular" then 0.6 else 0) +
    (if jsIncludes (jsToLower o.object_type) "open cluster" then 0.4 else 0) +
    (if jsIncludes (jsToLower o.object_type) "nebula" then 0.7 else 0)

/-- Concrete 3-hour forecast used to witness the window-optimizer theorems:
the best 2-hour window starts at index 1 (clouds `[10, 10]`). -/
def weatherW : Weather :=
  ⟨⟨["t0", "t1", "t2"], [50, 10, 10], [0, 0, 0], [0, 0, 0]⟩⟩

/-- Concrete 7-hour forecast whose first six cloud values average exactly 80
with no precipitation; the seventh hour is ignored by the summarizer. -/
def weather80 : Weather :=
  ⟨⟨["t0", "t1", "t2", "t3", "t4", "t5", "t6"],
    [80, 80, 80, 80, 80, 80, 20], [0, 0, 0, 0, 0, 0, 0],
    [0, 0, 0, 0, 0, 0, 0]⟩⟩

/-- The empty hourly series (all four arrays empty). -/
def emptyWeather : Weather := ⟨⟨[], [], [], []⟩⟩

/-- Altitude function that is constantly 20 degrees. -/
def altFn20 : ℚ → ℚ → ℚ := fun _ _ => 20

/-- Catalog object with valid coordinates and no optional attributes. -/
def objC3 : CatalogObj := ⟨some 0, some 0, none, none, ""⟩

/-- First object of the rounding-collision pair (exact score `40.02`). -/
def objA : CatalogObj := ⟨some 1, some 0, none, none, ""⟩

/-- Second object of the rounding-collision pair (exact score `40.04`). -/
def objB : CatalogObj := ⟨some 2, some 0, none, none, ""⟩

/-- Altitude function giving `20.01`° to `objA` (right ascension 1) and
`20.02`° to everything else, in particular to `objB`. -/
def altAB : ℚ → ℚ → ℚ := fun ra _ => if ra = 1 then 2001/100 else 2002/100

/-- A concrete `"bad"` night summary. -/
def tonightBad : Tonight := ⟨"bad", 90, 0⟩

/-- Equipment with a 300 mm aperture. -/
def equip300 : Equipment := ⟨some 300⟩

/-- Invariant of the selection loop of `computeBestWindow`: after scanning
candidates `1 .. k` starting from `(0, f 0)`, the held pair is the value of
`f` at its index, that value is a minimum of `f` over `0 .. k`, and every
strictly earlier index scores strictly worse (so the held index is the
earliest minimizer). -/
theorem bestLoop_spec (f : ℕ → ℚ) (k : ℕ) :
    (bestLoop f k).1 ≤ k ∧ (bestLoop f k).2 = f (bestLoop f k).1 ∧
      (∀ i, i ≤ k → (bestLoop f k).2 ≤ f i) ∧
      (∀ j, j < (bestLoop f k).1 → (bestLoop f k).2 < f j) := by
  induction k with
  | zero =>
    refine ⟨Nat.le_refl 0, rfl, ?_, ?_⟩
    · intro i hi
      have : i = 0 := Nat.le_zero.mp hi
      simp [bestLoop, this]
    · intro j hj
      simp [bestLoop] at hj
  | succ n ih =>
    obtain ⟨ih1, ih2, ih3, ih4⟩ := ih
    have hr : List.range' 1 (n + 1) = List.range' 1 n ++ [1 + n] := by
      simp [List.range'_concat]
    have hstep : bestLoop f (n + 1) =
        (if f (1 + n) < (bestLoop f n).2 then (1 + n, f (1 + n))
          else bestLoop f n) := by
      unfold bestLoop
      rw [hr, List.foldl_append, List.foldl_cons, List.foldl_nil]
    by_cases h : f (1 + n) < (bestLoop f n).2
    · rw [hstep, if_pos h]
      refine ⟨by omega, rfl, ?_, ?_⟩
      · intro i hi
        rcases Nat.lt_or_ge i (n + 1) with hi' | hi'
        · exact le_of_lt (lt_of_lt_of_le h (ih3 i (by omega)))
        · have : i = 1 + n := by omega
          simp [this]
      · intro j hj
        rcases Nat.lt_or_ge j (bestLoop f n).1 with hj' | hj'
        · exact lt_trans h (ih4 j hj')
        · exact lt_of_lt_of_le h (ih3 j (by omega))
    · rw [hstep, if_neg h]
      refine ⟨by omega, ih2, ?_, ih4⟩
      intro i hi
      rcases Nat.lt_or_ge i (n + 1) with hi' | hi'
      · exact ih3 i (by omega)
      · have : i = 1 + n := by omega
        rw [this]
        exact not_lt.mp h

/-- C1: for every hourly series whose first `horizonHours` entries number at
least `windowHours`, `computeBestWindow` returns a window built at a starting
index `i` whose raw score `scoreAt … i` (the claimed formula
`avg(cloud) * 1.0 + sum(precip) * 100.0 + avg(wind) * 0.2` over the slice
`[i, i+w)`) is minimal over all starting indices whose window lies inside the
first `horizonHours` entries (when the series is shorter than `horizonHours`
these are exactly the indices whose slices are defined), and every strictly
earlier index scores strictly worse, so exact ties are resolved toward the
earliest start. The displayed score is `round1` of that minimal raw score. -/
theorem computeBestWindow_min_earliest (weather : Weather) (hours windowHours : ℕ)
    (hw : windowHours ≤ (weather.hourly.time.take hours).length) :
    ∃ i W, computeBestWindow weather hours windowHours = some W ∧
      i + windowHours ≤ (weather.hourly.time.take hours).length ∧
      W.start = (weather.hourly.time.take hours).getD i "" ∧
      W.score = round1 (scoreAt (weather.hourly.cloud_cover.take hours)
        (weather.hourly.precipitation.take hours)
        (weather.hourly.wind_speed_10m.take hours) windowHours i) ∧
      (∀ j, j + windowHours ≤ (weather.hourly.time.take hours).length →
        scoreAt (weather.hourly.cloud_cover.take hours)
          (weather.hourly.precipitation.take hours)
          (weather.hourly.wind_speed_10m.take hours) windowHours i ≤
        scoreAt (weather.hourly.cloud_cover.take hours)
          (weather.hourly.precipitation.take hours)
          (weather.hourly.wind_speed_10m.take hours) windowHours j) ∧
      (∀ j, j < i →
        scoreAt (weather.hourly.cloud_cover.take hours)
          (weather.hourly.precipitation.take hours)
          (weather.hourly.wind_speed_10m.take hours) windowHours i <
        scoreAt (weather.hourly.cloud_cover.take hours)
          (weather.hourly.precipitation.take hours)
          (weather.hourly.wind_speed_10m.take hours) windowHours j) := by
  have hncond : ¬ (weather.hourly.time.take hours).length < windowHours :=
    not_lt.mpr hw
  obtain ⟨h1, h2, h3, h4⟩ := bestLoop_spec
    (scoreAt (weather.hourly.cloud_cover.take hours)
      (weather.hourly.precipitation.take hours)
      (weather.hourly.wind_speed_10m.take hours) windowHours)
    ((weather.hourly.time.take hours).length - windowHours)
  refine ⟨(bestLoop
      (scoreAt (weather.hourly.cloud_cover.take hours)
        (weather.hourly.precipitation.take hours)
        (weather.hourly.wind_speed_10m.take hours) windowHours)
      ((weather.hourly.time.take hours).length - windowHours)).1, ?_⟩
  unfold computeBestWindow
  rw [if_neg hncond]
  refine ⟨_, rfl, ?_, rfl, ?_, ?_, ?_⟩
  · omega
  · rw [← h2]
  · intro j hj
    rw [← h2]
    exact h3 j (by omega)
  · intro j hj
    rw [← h2]
    exact h4 j hj

/-- Witness for C1 at the concrete 3-hour series `weatherW` with the source's
default parameters (12-hour horizon, 2-hour window). -/
theorem computeBestWindow_min_earliest_witness :
    2 ≤ (weatherW.hourly.time.take 12).length ∧
    (∃ i W, computeBestWindow weatherW 12 2 = some W ∧
      i + 2 ≤ (weatherW.hourly.time.take 12).length ∧
      W.start = (weatherW.hourly.time.take 12).getD i "" ∧
      W.score = round1 (scoreAt (weatherW.hourly.cloud_cover.take 12)
        (weatherW.hourly.precipitation.take 12)
        (weatherW.hourly.wind_speed_10m.take 12) 2 i) ∧
      (∀ j, j + 2 ≤ (weatherW.hourly.time.take 12).length →
        scoreAt (weatherW.hourly.cloud_cover.take 12)
          (weatherW.hourly.precipitation.take 12)
          (weatherW.hourly.wind_speed_10m.take 12) 2 i ≤
        scoreAt (weatherW.hourly.cloud_cover.take 12)
          (weatherW.hourly.precipitation.take 12)
          (weatherW.hourly.wind_speed_10m.take 12) 2 j) ∧
      (∀ j, j < i →
        scoreAt (weatherW.hourly.cloud_cover.take 12)
          (weatherW.hourly.precipitation.take 12)
          (weatherW.hourly.wind_speed_10m.take 12) 2 i <
        scoreAt (weatherW.hourly.cloud_cover.take 12)
          (weatherW.hourly.precipitation.take 12)
          (weatherW.hourly.wind_speed_10m.take 12) 2 j)) :=
  ⟨by decide, computeBestWindow_min_earliest weatherW 12 2 (by decide)⟩

/-- C6: under the `HourlySeries` invariant (all four arrays the same length)
and a window of at least one hour, `computeBestWindow` returns `null` exactly
when the series restricted to the first `horizonHours` entries has fewer than
`windowHours` entries; any returned window is built at a start index `i` with
the start timestamp at `i`, the end timestamp at index `i + windowHours - 1`
(an in-range index — the start of the last included hour, not
`i + windowHours`), cloud cover rounded to the nearest integer percent
(`jsRound`), precipitation and wind rounded to one decimal (`round1`), and
the raw score rounded to one decimal. The first conjunct records that the
invariant makes the entry count of the truncated series unambiguous. -/
theorem computeBestWindow_none_iff_fields (weather : Weather)
    (hours windowHours : ℕ)
    (hc : weather.hourly.cloud_cover.length = weather.hourly.time.length)
    (hp : weather.hourly.precipitation.length = weather.hourly.time.length)
    (hd : weather.hourly.wind_speed_10m.length = weather.hourly.time.length)
    (hw1 : 1 ≤ windowHours) :
    ((weather.hourly.cloud_cover.take hours).length =
        (weather.hourly.time.take hours).length ∧
      (weather.hourly.precipitation.take hours).length =
        (weather.hourly.time.take hours).length ∧
      (weather.hourly.wind_speed_10m.take hours).length =
        (weather.hourly.time.take hours).length) ∧
    (computeBestWindow weather hours windowHours = none ↔
      (weather.hourly.time.take hours).length < windowHours) ∧
    (∀ W, computeBestWindow weather hours windowHours = some W →
      ∃ i, i + windowHours ≤ (weather.hourly.time.take hours).length ∧
        i + windowHours - 1 < (weather.hourly.time.take hours).length ∧
        W.start = (weather.hourly.time.take hours).getD i "" ∧
        W.window_end =
          (weather.hourly.time.take hours).getD (i + windowHours - 1) "" ∧
        W.window_hours = windowHours ∧
        W.avg_cloud_cover_percent = jsRound
          (avg (((weather.hourly.cloud_cover.take hours).drop i).take windowHours)) ∧
        W.total_precip_mm = round1
          (sum (((weather.hourly.precipitation.take hours).drop i).take windowHours)) ∧
        W.avg_wind_kmh = round1
          (avg (((weather.hourly.wind_speed_10m.take hours).drop i).take windowHours)) ∧
        W.score = round1 (scoreAt (weather.hourly.cloud_cover.take hours)
          (weather.hourly.precipitation.take hours)
          (weather.hourly.wind_speed_10m.take hours) windowHours i)) := by
  refine ⟨by simp [List.length_take, hc, hp, hd], ?_, ?_⟩
  · constructor
    · intro hnone
      by_contra hlt
      unfold computeBestWindow at hnone
      rw [if_neg hlt] at hnone
      exact Option.noConfusion hnone
    · intro hlt
      unfold computeBestWindow
      rw [if_pos hlt]
  · intro W hW
    by_cases hlt : (weather.hourly.time.take hours).length < windowHours
    · unfold computeBestWindow at hW
      rw [if_pos hlt] at hW
      exact Option.noConfusion hW
    · have hw : windowHours ≤ (weather.hourly.time.take hours).length :=
        not_lt.mp hlt
      obtain ⟨h1, h2, h3, h4⟩ := bestLoop_spec
        (scoreAt (weather.hourly.cloud_cover.take hours)
          (weather.hourly.precipitation.take hours)
          (weather.hourly.wind_speed_10m.take hours) windowHours)
        ((weather.hourly.time.take hours).length - windowHours)
      unfold computeBestWindow at hW
      rw [if_neg hlt] at hW
      have hWeq := (Option.some.injEq _ _).mp hW
      refine ⟨(bestLoop
          (scoreAt (weather.hourly.cloud_cover.take hours)
            (weather.hourly.precipitation.take hours)
            (weather.hourly.wind_speed_10m.take hours) windowHours)
          ((weather.hourly.time.take hours).length - windowHours)).1,
        by omega, by omega, ?_, ?_, ?_, ?_, ?_, ?_, ?_⟩ <;>
        rw [← hWeq]
      rw [← h2]

/-- Witness for C6 at the concrete 3-hour series `weatherW` with the default
parameters. -/
theorem computeBestWindow_none_iff_fields_witness :
    (weatherW.hourly.cloud_cover.length = weatherW.hourly.time.length ∧
      weatherW.hourly.precipitation.length = weatherW.hourly.time.length ∧
      weatherW.hourly.wind_speed_10m.length = weatherW.hourly.time.length ∧
      1 ≤ 2) ∧
    (((weatherW.hourly.cloud_cover.take 12).length =
        (weatherW.hourly.time.take 12).length ∧
      (weatherW.hourly.precipitation.take 12).length =
        (weatherW.hourly.time.take 12).length ∧
      (weatherW.hourly.wind_speed_10m.take 12).length =
        (weatherW.hourly.time.take 12).length) ∧
    (computeBestWindow weatherW 12 2 = none ↔
      (weatherW.hourly.time.take 12).length < 2) ∧
    (∀ W, computeBestWindow weatherW 12 2 = some W →
      ∃ i, i + 2 ≤ (weatherW.hourly.time.take 12).length ∧
        i + 2 - 1 < (weatherW.hourly.time.take 12).length ∧
        W.start = (weatherW.hourly.time.take 12).getD i "" ∧
        W.window_end = (weatherW.hourly.time.take 12).getD (i + 2 - 1) "" ∧
        W.window_hours = 2 ∧
        W.avg_cloud_cover_percent = jsRound
          (avg (((weatherW.hourly.cloud_cover.take 12).drop i).take 2)) ∧
        W.total_precip_mm = round1
          (sum (((weatherW.hourly.precipitation.take 12).drop i).take 2)) ∧
        W.avg_wind_kmh = round1
          (avg (((weatherW.hourly.wind_speed_10m.take 12).drop i).take 2)) ∧
        W.score = round1 (scoreAt (weatherW.hourly.cloud_cover.take 12)
          (weatherW.hourly.precipitation.take 12)
          (weatherW.hourly.wind_speed_10m.take 12) 2 i))) :=
  ⟨⟨by decide, by decide, by decide, by decide⟩,
    computeBestWindow_none_iff_fields weatherW 12 2 (by decide) (by decide)
      (by decide) (by decide)⟩

/-- C10: the averaging helper is total — on the empty sequence it returns 0,
its guarded divisor `length || 1` is never zero, and with a degenerate window
of 0 hours every window score evaluates (to 0) without dividing by zero. -/
theorem avg_total_guarded :
    avg [] = 0 ∧
    (∀ arr : List ℚ,
      (((if arr.length = 0 then 1 else arr.length : ℕ) : ℚ)) ≠ 0) ∧
    (∀ clouds precip wind : List ℚ, ∀ i : ℕ,
      scoreAt clouds precip wind 0 i = 0) := by
  refine ⟨by simp [avg, sum], ?_, ?_⟩
  · intro arr
    by_cases h : arr.length = 0
    · simp [h]
    · simp [h]
  · intro clouds precip wind i
    simp [scoreAt, avg, sum]

/-- C5 evidence: when the weather time zone is absent (or the falsy empty
string), `toDateInWeatherTZ` silently interprets the local timestamp in the
`"UTC"` zone and returns the converted instant — it is a total function with
no failure channel, contradicting the claim that the conversion must fail
loudly for a missing zone. -/
theorem toDateInWeatherTZ_defaults_to_UTC {α : Type}
    (fromISO : String → String → α) (isoLocal : String) :
    toDateInWeatherTZ fromISO isoLocal none = fromISO isoLocal "UTC" ∧
    toDateInWeatherTZ fromISO isoLocal (some "") = fromISO isoLocal "UTC" ∧
    effectiveZone none = "UTC" :=
  ⟨rfl, rfl, rfl⟩

/-- C7 evidence: on the empty hourly series the summarizer does not fail — it
silently returns the verdict `"ok"` (in JS the average is `NaN`, whose `> 80`
and `> 50` comparisons are false, and the zero precipitation total is not
`> 1`; the embedding's total division reaches the same branch). -/
theorem summarizeTonight_empty_returns_ok :
    (summarizeTonight emptyWeather).verdict = "ok" := by
  simp [summarizeTonight, emptyWeather, sum]
  norm_num

/-- C4: restricted to nonempty series (where the mean is well defined), the
summarizer's verdict is `"bad"` exactly when the mean of the first six cloud
values exceeds 80 or the six-hour precipitation total exceeds 1 (both
strictly), `"mixed"` exactly when neither holds and the mean exceeds 50, and
`"ok"` otherwise; and the result depends only on the first six entries
(truncating all series to six entries leaves it unchanged). -/
theorem summarizeTonight_verdict_cases (weather : Weather)
    (_h6 : 0 < (weather.hourly.cloud_cover.take 6).length) :
    ((summarizeTonight weather).verdict = "bad" ↔
      80 < sum (weather.hourly.cloud_cover.take 6) /
          ((weather.hourly.cloud_cover.take 6).length : ℚ) ∨
        1 < sum (weather.hourly.precipitation.take 6)) ∧
    ((summarizeTonight weather).verdict = "mixed" ↔
      sum (weather.hourly.cloud_cover.take 6) /
          ((weather.hourly.cloud_cover.take 6).length : ℚ) ≤ 80 ∧
        sum (weather.hourly.precipitation.take 6) ≤ 1 ∧
        50 < sum (weather.hourly.cloud_cover.take 6) /
          ((weather.hourly.cloud_cover.take 6).length : ℚ)) ∧
    ((summarizeTonight weather).verdict = "ok" ↔
      sum (weather.hourly.cloud_cover.take 6) /
          ((weather.hourly.cloud_cover.take 6).length : ℚ) ≤ 80 ∧
        sum (weather.hourly.precipitation.take 6) ≤ 1 ∧
        sum (weather.hourly.cloud_cover.take 6) /
          ((weather.hourly.cloud_cover.take 6).length : ℚ) ≤ 50) ∧
    summarizeTonight weather = summarizeTonight
      ⟨⟨weather.hourly.time.take 6, weather.hourly.cloud_cover.take 6,
        weather.hourly.precipitation.take 6,
        weather.hourly.wind_speed_10m.take 6⟩⟩ := by
  have hv : (summarizeTonight weather).verdict =
      (if 80 < sum (weather.hourly.cloud_cover.take 6) /
            ((weather.hourly.cloud_cover.take 6).length : ℚ) ∨
          1 < sum (weather.hourly.precipitation.take 6) then "bad"
        else if 50 < sum (weather.hourly.cloud_cover.take 6) /
            ((weather.hourly.cloud_cover.take 6).length : ℚ) then "mixed"
        else "ok") := rfl
  by_cases hb : 80 < sum (weather.hourly.cloud_cover.take 6) /
      ((weather.hourly.cloud_cover.take 6).length : ℚ) ∨
      1 < sum (weather.hourly.precipitation.take 6)
  · refine ⟨?_, ?_, ?_, by simp [summarizeTonight, List.take_take]⟩
    · rw [hv, if_pos hb]
      exact ⟨fun _ => hb, fun _ => rfl⟩
    · rw [hv, if_pos hb]
      refine ⟨fun h => absurd h (by decide), ?_⟩
      rintro ⟨h1, h2, -⟩
      refine absurd hb ?_
      rintro (h | h)
      · exact absurd h (not_lt.mpr h1)
      · exact absurd h (not_lt.mpr h2)
    · rw [hv, if_pos hb]
      refine ⟨fun h => absurd h (by decide), ?_⟩
      rintro ⟨h1, h2, -⟩
      refine absurd hb ?_
      rintro (h | h)
      · exact absurd h (not_lt.mpr h1)
      · exact absurd h (not_lt.mpr h2)
  · have hA : sum (weather.hourly.cloud_cover.take 6) /
        ((weather.hourly.cloud_cover.take 6).length : ℚ) ≤ 80 :=
      not_lt.mp (fun h => hb (Or.inl h))
    have hP : sum (weather.hourly.precipitation.take 6) ≤ 1 :=
      not_lt.mp (fun h => hb (Or.inr h))
    by_cases hm : 50 < sum (weather.hourly.cloud_cover.take 6) /
        ((weather.hourly.cloud_cover.take 6).length : ℚ)
    · refine ⟨?_, ?_, ?_, by simp [summarizeTonight, List.take_take]⟩
      · rw [hv, if_neg hb, if_pos hm]
        exact ⟨fun h => absurd h (by decide), fun hr => absurd hr hb⟩
      · rw [hv, if_neg hb, if_pos hm]
        exact ⟨fun _ => ⟨hA, hP, hm⟩, fun _ => rfl⟩
      · rw [hv, if_neg hb, if_pos hm]
        refine ⟨fun h => absurd h (by decide), ?_⟩
        rintro ⟨-, -, h3⟩
        exact absurd hm (not_lt.mpr h3)
    · refine ⟨?_, ?_, ?_, by simp [summarizeTonight, List.take_take]⟩
      · rw [hv, if_neg hb, if_neg hm]
        exact ⟨fun h => absurd h (by decide), fun hr => absurd hr hb⟩
      · rw [hv, if_neg hb, if_neg hm]
        refine ⟨fun h => absurd h (by decide), ?_⟩
        rintro ⟨-, -, h3⟩
        exact absurd h3 hm
      · rw [hv, if_neg hb, if_neg hm]
        exact ⟨fun _ => ⟨hA, hP, not_lt.mp hm⟩, fun _ => rfl⟩

/-- Witness for C4 at `weather80`, whose first six cloud values average
exactly 80 with zero precipitation: the verdict is `"mixed"`, not `"bad"`,
and the reported average is 80. -/
theorem summarizeTonight_verdict_cases_witness :
    (0 < (weather80.hourly.cloud_cover.take 6).length) ∧
    (((summarizeTonight weather80).verdict = "bad" ↔
      80 < sum (weather80.hourly.cloud_cover.take 6) /
          ((weather80.hourly.cloud_cover.take 6).length : ℚ) ∨
        1 < sum (weather80.hourly.precipitation.take 6)) ∧
    ((summarizeTonight weather80).verdict = "mixed" ↔
      sum (weather80.hourly.cloud_cover.take 6) /
          ((weather80.hourly.cloud_cover.take 6).length : ℚ) ≤ 80 ∧
        sum (weather80.hourly.precipitation.take 6) ≤ 1 ∧
        50 < sum (weather80.hourly.cloud_cover.take 6) /
          ((weather80.hourly.cloud_cover.take 6).length : ℚ)) ∧
    ((summarizeTonight weather80).verdict = "ok" ↔
      sum (weather80.hourly.cloud_cover.take 6) /
          ((weather80.hourly.cloud_cover.take 6).length : ℚ) ≤ 80 ∧
        sum (weather80.hourly.precipitation.take 6) ≤ 1 ∧
        sum (weather80.hourly.cloud_cover.take 6) /
          ((weather80.hourly.cloud_cover.take 6).length : ℚ) ≤ 50) ∧
    summarizeTonight weather80 = summarizeTonight
      ⟨⟨weather80.hourly.time.take 6, weather80.hourly.cloud_cover.take 6,
        weather80.hourly.precipitation.take 6,
        weather80.hourly.wind_speed_10m.take 6⟩⟩) ∧
    (summarizeTonight weather80).verdict = "mixed" ∧
    (summarizeTonight weather80).avg_cloud_cover_percent = 80 :=
  ⟨by decide, summarizeTonight_verdict_cases weather80 (by decide),
    by norm_num [summarizeTonight, weather80, sum],
    by norm_num [summarizeTonight, weather80, sum, jsRound]⟩

/-- C8: the plan composer is deterministic, returns at most 3 fixed text
items chosen by the (lower-cased) verdict, and the equipment reaches the
output only through the single boolean `aperture_mm >= 150` test inside the
default (`"ok"`) message set: for a `"bad"` or `"mixed"` verdict the plan is
independent of equipment, and for any verdict two equipment descriptors with
the same aperture test produce the same plan. -/
theorem makeRuleBasedPlan_spec (tonight : Option Tonight)
    (e₁ e₂ : Option Equipment)
    (h : verdictOf tonight = "bad" ∨ verdictOf tonight = "mixed" ∨
      apertureAtLeast150 e₁ = apertureAtLeast150 e₂) :
    (makeRuleBasedPlan tonight e₁).length ≤ 3 ∧
    makeRuleBasedPlan tonight e₁ = makeRuleBasedPlan tonight e₂ := by
  by_cases hb : verdictOf tonight = "bad"
  · simp [makeRuleBasedPlan, hb]
  · by_cases hm : verdictOf tonight = "mixed"
    · simp [makeRuleBasedPlan, hb, hm]
    · rcases h with h | h | h
      · exact absurd h hb
      · exact absurd h hm
      · cases hA : apertureAtLeast150 e₂ <;>
          simp [makeRuleBasedPlan, hb, hm, h, hA]

/-- Witness for C8 at a concrete `"bad"` summary: two very different
equipment descriptors (none at all, and a 300 mm aperture) get the identical
3-item bad-weather plan. -/
theorem makeRuleBasedPlan_spec_witness :
    (verdictOf (some tonightBad) = "bad" ∨
      verdictOf (some tonightBad) = "mixed" ∨
      apertureAtLeast150 none = apertureAtLeast150 (some equip300)) ∧
    ((makeRuleBasedPlan (some tonightBad) none).length ≤ 3 ∧
      makeRuleBasedPlan (some tonightBad) none =
        makeRuleBasedPlan (some tonightBad) (some equip300)) :=
  ⟨Or.inl (by decide),
    makeRuleBasedPlan_spec (some tonightBad) none (some equip300)
      (Or.inl (by decide))⟩

/-- C2: for every altitude function, aperture, bound and catalog, the target
scorer's output has length at most `maxResults`; every output entry comes
from a catalog object with finite (present) right ascension and declination
whose computed altitude is at least 15 degrees, and carries that object with
rounded altitude and rounded score; the output is sorted by descending
(stored) score; and entries with exactly equal scores appear in their
original catalog order. -/
theorem pickTargets_spec (altFn : ℚ → ℚ → ℚ) (apertureMm : Option ℚ)
    (max : ℕ) (messier : List CatalogObj) :
    (pickTargets altFn apertureMm max messier).length ≤ max ∧
    List.Forall (fun t => ∃ o ra dec, o ∈ messier ∧
      o.ra_deg = some ra ∧ o.dec_deg = some dec ∧ 15 ≤ altFn ra dec ∧
      t.obj = o ∧ t.altitude_deg = round1 (altFn ra dec) ∧
      t.score = round1 (scoreOf apertureMm (altFn ra dec) o))
      (pickTargets altFn apertureMm max messier) ∧
    List.Pairwise (fun a b => b.score ≤ a.score)
      (pickTargets altFn apertureMm max messier) ∧
    List.Pairwise (fun a b => a.score = b.score → a.catalogIdx ≤ b.catalogIdx)
      (pickTargets altFn apertureMm max messier) := by
  have hsorted : List.Sorted targetLE (List.insertionSort targetLE
      (messier.enum.filterMap (fun oi =>
        match oi.2.ra_deg, oi.2.dec_deg with
        | some ra, some dec =>
          if altFn ra dec < 15 then none
          else some
            { obj := oi.2
              catalogIdx := oi.1
              altitude_deg := round1 (altFn ra dec)
              score := round1 (scoreOf apertureMm (altFn ra dec) oi.2) }
        | _, _ => none))) :=
    List.sorted_insertionSort targetLE _
  have hout : pickTargets altFn apertureMm max messier =
      List.take max (List.insertionSort targetLE
        (messier.enum.filterMap (fun oi =>
          match oi.2.ra_deg, oi.2.dec_deg with
          | some ra, some dec =>
            if altFn ra dec < 15 then none
            else some
              { obj := oi.2
                catalogIdx := oi.1
                altitude_deg := round1 (altFn ra dec)
                score := round1 (scoreOf apertureMm (altFn ra dec) oi.2) }
          | _, _ => none))) := rfl
  have hpw : List.Pairwise targetLE (pickTargets altFn apertureMm max messier) := by
    rw [hout]
    exact List.Pairwise.sublist (List.take_sublist _ _) hsorted
  refine ⟨?_, ?_, ?_, ?_⟩
  · rw [hout, List.length_take]
    exact min_le_left _ _
  · rw [List.forall_iff_forall_mem]
    intro t ht
    rw [hout] at ht
    have ht2 := (List.perm_insertionSort targetLE _).mem_iff.mp
      (List.mem_of_mem_take ht)
    obtain ⟨⟨i, o⟩, hmem, hstep⟩ := List.mem_filterMap.mp ht2
    have homem : o ∈ messier := by
      have h1 := List.enum_map_snd messier
      rw [← h1]
      exact List.mem_map_of_mem Prod.snd hmem
    rcases hra : o.ra_deg with _ | ra
    · simp [hra] at hstep
    · rcases hdec : o.dec_deg with _ | dec
      · simp [hra, hdec] at hstep
      · simp only [hra, hdec] at hstep
        by_cases halt : altFn ra dec < 15
        · simp [halt] at hstep
        · rw [if_neg halt] at hstep
          obtain rfl := (Option.some.injEq _ _).mp hstep
          exact ⟨o, ra, dec, homem, hra, hdec, not_lt.mp halt, rfl, rfl, rfl⟩
  · exact hpw.imp (fun hab => by
      rcases hab with h | ⟨h, -⟩
      · exact le_of_lt h
      · exact le_of_eq h.symm)
  · exact hpw.imp (fun hab => by
      rcases hab with h | ⟨-, h⟩
      · intro heq
        exact absurd h (by rw [heq]; exact lt_irrefl _)
      · intro _
        exact h)

/-- Evaluation rule for `jsRound` at a bracketed input. -/
lemma jsRound_eval (x : ℚ) (n : ℤ) (h1 : (n : ℚ) ≤ x + 1/2)
    (h2 : x + 1/2 < n + 1) : jsRound x = n := by
  unfold jsRound
  exact Int.floor_eq_iff.mpr ⟨h1, by linarith⟩

/-- C3 counterexample: with a 0 mm aperture the source adds
`Math.min(2.0, (0 - 80) / 80) = -1` — the aperture term is not clamped below
at 0 as the claim states. For a 20°-altitude object with no other optional
fields, the source's score is `39` (and the scorer's output carries `39`)
while the claimed clamped formula gives `40`. -/
theorem pickTargets_aperture_not_clamped :
    scoreOf (some 0) 20 objC3 = 39 ∧
    scoreSpecClamped (some 0) 20 objC3 = 40 ∧
    (pickTargets altFn20 (some 0) 8 [objC3]).map (fun t => t.score) = [39] := by
  have hg : jsIncludes (jsToLower "") "globular" = false := by decide
  have ho : jsIncludes (jsToLower "") "open cluster" = false := by decide
  have hn : jsIncludes (jsToLower "") "nebula" = false := by decide
  refine ⟨?_, ?_, ?_⟩
  · simp only [scoreOf, objC3, hg, ho, hn, if_neg]
    norm_num [min_def]
  · simp only [scoreSpecClamped, objC3, clamp, hg, ho, hn]
    norm_num [min_def, max_def]
  · have hscore : scoreOf (some 0) 20 objC3 = 39 := by
      simp only [scoreOf, objC3, hg, ho, hn, if_neg]
      norm_num [min_def]
    have hscore2 : scoreOf (some 0) 20
        ⟨some 0, some 0, none, none, ""⟩ = 39 := hscore
    have hr : round1 (scoreOf (some 0) 20
        (⟨some 0, some 0, none, none, ""⟩ : CatalogObj)) = 39 := by
      rw [hscore2]
      unfold round1
      rw [jsRound_eval (39 * 10 : ℚ) 390 (by norm_num) (by norm_num)]
      norm_num
    simp only [pickTargets, List.enum, objC3, altFn20]
    norm_num [List.insertionSort, hr]

/-- C3 as amended: the composite score of a surviving object is
`altitude * 2.0`, plus `(10 - magnitude) * 3.0` when the magnitude is finite,
plus `min(2.0, (aperture_mm - 80) / 80)` when the aperture is finite (capped
above at 2.0 but NOT clamped below, so it is negative for apertures under
80 mm), plus `min(2.0, angular_size / 30)` when the angular size is finite,
plus `+0.6` / `+0.4` / `+0.7` for a lower-cased type containing
`"globular"` / `"open cluster"` / `"nebula"`; each missing optional field
omits its term. -/
theorem scoreOf_closed_form (apertureMm : Option ℚ) (alt : ℚ)
    (o : CatalogObj) :
    scoreOf apertureMm alt o =
      alt * 2.0 +
      (match o.apparent_magnitude with
        | some mag => (10 - mag) * 3.0
        | none => 0) +
      (match apertureMm with
        | some ap => min 2.0 ((ap - 80) / 80)
        | none => 0) +
      (match o.size_major_arcmin with
        | some major => min 2.0 (major / 30)
        | none => 0) +
      (if jsIncludes (jsToLower o.object_type) "globular" then 0.6 else 0) +
      (if jsIncludes (jsToLower o.object_type) "open cluster" then 0.4 else 0) +
      (if jsIncludes (jsToLower o.object_type) "nebula" then 0.7 else 0) := by
  unfold scoreOf
  rcases o with ⟨ra, dec, mag, major, ty⟩
  rcases mag with _ | mag <;> rcases apertureMm with _ | ap <;>
    rcases major with _ | major <;> simp only [] <;> split_ifs <;> ring

/-- C9: the scorer rounds scores to one decimal before the sort, so ordering
and the stable tie-break are decided on rounded values: `objA` (exact score
40.02) and `objB` (exact score 40.04) differ in exact score by less than the
0.1 granularity, both round to 40.0, and the pair keeps its catalog order
(`objA` first) even though `objB`'s exact score is larger. -/
theorem pickTargets_rounds_before_sort :
    scoreOf none (altAB 1 0) objA < scoreOf none (altAB 2 0) objB ∧
    round1 (scoreOf none (altAB 1 0) objA) =
      round1 (scoreOf none (altAB 2 0) objB) ∧
    (pickTargets altAB none 8 [objA, objB]).map (fun t => t.catalogIdx) =
      [0, 1] ∧
    (pickTargets altAB none 8 [objA, objB]).map (fun t => t.score) =
      [40, 40] := by
  have hg : jsIncludes (jsToLower "") "globular" = false := by decide
  have ho : jsIncludes (jsToLower "") "open cluster" = false := by decide
  have hn : jsIncludes (jsToLower "") "nebula" = false := by decide
  have ha1 : altAB 1 0 = 2001/100 := by norm_num [altAB]
  have ha2 : altAB 2 0 = 1001/50 := by norm_num [altAB]
  have hsA : scoreOf none (2001/100 : ℚ)
      (⟨some 1, some 0, none, none, ""⟩ : CatalogObj) = 2001/50 := by
    simp only [scoreOf, hg, ho, hn]
    norm_num
  have hsB : scoreOf none (1001/50 : ℚ)
      (⟨some 2, some 0, none, none, ""⟩ : CatalogObj) = 1001/25 := by
    simp only [scoreOf, hg, ho, hn]
    norm_num
  have hrA : round1 (scoreOf none (2001/100 : ℚ)
      (⟨some 1, some 0, none, none, ""⟩ : CatalogObj)) = 40 := by
    rw [hsA]
    unfold round1
    rw [jsRound_eval ((2001/50 : ℚ) * 10) 400 (by norm_num) (by norm_num)]
    norm_num
  have hrB : round1 (scoreOf none (1001/50 : ℚ)
      (⟨some 2, some 0, none, none, ""⟩ : CatalogObj)) = 40 := by
    rw [hsB]
    unfold round1
    rw [jsRound_eval ((1001/25 : ℚ) * 10) 400 (by norm_num) (by norm_num)]
    norm_num
  have hsA' : scoreOf none (altAB 1 0) objA = 2001/50 := by rw [ha1]; exact hsA
  have hsB' : scoreOf none (altAB 2 0) objB = 1001/25 := by rw [ha2]; exact hsB
  refine ⟨?_, ?_, ?_, ?_⟩
  · rw [hsA', hsB']
    norm_num
  · rw [hsA', hsB']
    unfold round1
    rw [jsRound_eval ((2001/50 : ℚ) * 10) 400 (by norm_num) (by norm_num),
      jsRound_eval ((1001/25 : ℚ) * 10) 400 (by norm_num) (by norm_num)]
  · simp only [pickTargets, List.enum, objA, objB]
    norm_num [altAB, List.insertionSort, hrA, hrB, List.orderedInsert,
      targetLE, List.filterMap_cons, List.filterMap_nil]
  · simp only [pickTargets, List.enum, objA, objB]
    norm_num [altAB, List.insertionSort, hrA, hrB, List.orderedInsert,
      targetLE, List.filterMap_cons, List.filterMap_nil]

/-- Witness for C2: the specification instantiated at a concrete altitude
function, no aperture, bound 8 and the two-object catalog. -/
theorem pickTargets_spec_witness :
    (pickTargets altAB none 8 [objA, objB]).length ≤ 8 ∧
    List.Forall (fun t => ∃ o ra dec, o ∈ [objA, objB] ∧
      o.ra_deg = some ra ∧ o.dec_deg = some dec ∧ 15 ≤ altAB ra dec ∧
      t.obj = o ∧ t.altitude_deg = round1 (altAB ra dec) ∧
      t.score = round1 (scoreOf none (altAB ra dec) o))
      (pickTargets altAB none 8 [objA, objB]) ∧
    List.Pairwise (fun a b => b.score ≤ a.score)
      (pickTargets altAB none 8 [objA, objB]) ∧
    List.Pairwise (fun a b => a.score = b.score → a.catalogIdx ≤ b.catalogIdx)
      (pickTargets altAB none 8 [objA, objB]) :=
  pickTargets_spec altAB none 8 [objA, objB]
